import Mathlib

/-!
Verification of the tendly-search query dispatch and fallback mechanism.

Shallow embedding of the code in `Home.py`, `utils/simple_search.py`,
`utils/search_util.py`, `utils/sql_chat.py` and `utils/db_util.py`.
Strings are modelled as `List Char` where character-level reasoning is
needed; Python's `str.lower()` is modelled by mapping `Char.toLower`
(the data handled by the program is ASCII/Estonian text, for which this
agrees on the letters the keyword triggers use).
-/

/-- Lowercase every character, modelling Python's `str.lower()`. -/
def lowerList (s : List Char) : List Char := s.map Char.toLower

/-- Boolean prefix test on character lists. -/
def isPrefixCh : List Char → List Char → Bool
  | [], _ => true
  | _ :: _, [] => false
  | a :: as, b :: bs => a == b && isPrefixCh as bs

/-- Boolean substring test: Python's `needle in haystack` on strings. -/
def containsSub : List Char → List Char → Bool
  | w, [] => isPrefixCh w []
  | w, c :: cs => isPrefixCh w (c :: cs) || containsSub w cs

/-- Accumulator for `words`: `cur` holds the current word reversed. -/
def wordsAux : List Char → List Char → List (List Char)
  | [], cur => if cur = [] then [] else [cur.reverse]
  | c :: cs, cur =>
    if c.isWhitespace then
      if cur = [] then wordsAux cs [] else cur.reverse :: wordsAux cs []
    else wordsAux cs (c :: cur)

/-- Whitespace tokenisation, modelling Python's `str.split()` (runs of
whitespace separate tokens, empty tokens dropped). -/
def words (s : List Char) : List (List Char) := wordsAux s []

/-- Python `keywords[0] if keywords else search_query` in `Home.py`:
the first whitespace-separated token, or the whole text if there is none. -/
def mainKeyword (q : List Char) : List Char :=
  match words q with
  | [] => q
  | w :: _ => w

/-- The canned templates the fallback dispatch in `Home.py` can select. -/
inductive Template
  | construction
  | harjumaa
  | highValue
  | recent
  | it
  | active
  | keyword
deriving DecidableEq

/-- Python `any(word in search_lower for word in ws)` from `Home.py`. -/
def anyKeywordIn (ws : List String) (s : List Char) : Bool :=
  ws.any (fun w => containsSub w.toList s)

/-- The keyword dispatch chain of `Home.py` lines 224-242: lowercases the
raw search text and tests each trigger list by substring containment, in
source order, first match wins; the final `else` is the generic keyword
fallback. -/
def dispatch (q : List Char) : Template :=
  let search_lower := lowerList q
  if anyKeywordIn ["construction", "ehitus", "building"] search_lower then
    Template.construction
  else if anyKeywordIn ["harjumaa", "harju", "tallinn"] search_lower then
    Template.harjumaa
  else if anyKeywordIn ["high value", "expensive", "large"] search_lower then
    Template.highValue
  else if anyKeywordIn ["recent", "new", "latest"] search_lower then
    Template.recent
  else if anyKeywordIn ["it", "software", "tarkvara", "technology"] search_lower then
    Template.it
  else if anyKeywordIn ["active", "open", "current"] search_lower then
    Template.active
  else
    Template.keyword

/-- The dispatch chain of `Home.py` presented as an ordered table of
(trigger keywords, template) pairs, in the source's priority order. -/
def dispatchTable : List (List String × Template) :=
  [ (["construction", "ehitus", "building"], Template.construction),
    (["harjumaa", "harju", "tallinn"], Template.harjumaa),
    (["high value", "expensive", "large"], Template.highValue),
    (["recent", "new", "latest"], Template.recent),
    (["it", "software", "tarkvara", "technology"], Template.it),
    (["active", "open", "current"], Template.active) ]

/-- Top-to-bottom first-match-wins evaluation of a dispatch table with
substring-containment predicates; an exhausted table yields the generic
keyword fallback. -/
def resolveFirst : List (List String × Template) → List Char → Template
  | [], _ => Template.keyword
  | (ws, t) :: rest, s => if anyKeywordIn ws s then t else resolveFirst rest s

/-- Modelled from the spec: first-match-wins evaluation where each
predicate is membership of one of the trigger keywords among the raw
text's tokens ("Test membership of raw text tokens against each Canned
Template's keyword_triggers"), not substring containment. Used only to
compare the spec's wording with the code's dispatch. -/
def resolveFirstTokens : List (List String × Template) → List (List Char) → Template
  | [], _ => Template.keyword
  | (ws, t) :: rest, toks =>
    if ws.any (fun w => toks.contains w.toList) then t
    else resolveFirstTokens rest toks

/-- Modelled from the spec: the token-membership dispatch the spec
describes, over the same trigger table and priority order as the code. -/
def dispatchSpecTokens (q : List Char) : Template :=
  resolveFirstTokens dispatchTable (words (lowerList q))

/-- One result row of the `estonian_tenders` SELECTs in
`utils/simple_search.py` (columns in SELECT order). `estimated_value` is
`none` for SQL NULL; monetary values in the refuted scenarios are whole
euros, so `Nat` suffices. -/
structure Row where
  title : String
  description : String
  estimated_value : Option Nat
  deadline : String
  organization_name : String
  location : String
deriving DecidableEq

/-- Fuel-indexed SQL `LIKE` pattern matching: `%` matches any sequence,
`_` any single character, other characters themselves. The fuel is an
upper bound on recursion depth; `likeMatch` supplies enough. -/
def likeMatchF : Nat → List Char → List Char → Bool
  | 0, p, s => p.isEmpty && s.isEmpty
  | fuel + 1, p, s =>
    match p with
    | [] => s.isEmpty
    | c :: ps =>
      if c == '%' then
        likeMatchF fuel ps s ||
          (match s with
           | [] => false
           | _ :: s' => likeMatchF fuel (c :: ps) s')
      else
        match s with
        | [] => false
        | d :: s' =>
          if c == '_' then likeMatchF fuel ps s'
          else c == d && likeMatchF fuel ps s'

/-- SQL `LIKE` semantics of the database driver. -/
def likeMatch (p s : List Char) : Bool :=
  likeMatchF (p.length + s.length + 1) p s

/-- True when a keyword contains neither of the `LIKE` wildcards. -/
def noWild (w : List Char) : Bool :=
  w.all (fun c => !(c == '%' || c == '_'))

/-- Python `f"%.."` bound value of `search_by_keyword`:
`search_term = "%" + keyword.lower() + "%"`. -/
def searchTerm (kw : List Char) : List Char :=
  '%' :: (lowerList kw ++ ['%'])

/-- WHERE clause of `SimpleSearchAgent.search_by_keyword`:
`LOWER(title) LIKE %s OR LOWER(description) LIKE %s OR
LOWER(organization_name) LIKE %s` with `search_term` bound to each hole. -/
def keywordWhere (kw : List Char) (r : Row) : Bool :=
  likeMatch (searchTerm kw) (lowerList r.title.toList) ||
  likeMatch (searchTerm kw) (lowerList r.description.toList) ||
  likeMatch (searchTerm kw) (lowerList r.organization_name.toList)

/-- Insertion step for `ORDER BY deadline DESC` (dates are ISO-formatted
strings, compared lexicographically). -/
def insertByDeadline (r : Row) : List Row → List Row
  | [] => [r]
  | x :: xs =>
    if x.deadline ≤ r.deadline then r :: x :: xs
    else x :: insertByDeadline r xs

/-- Stable sort realising `ORDER BY deadline DESC`. -/
def sortByDeadlineDesc : List Row → List Row
  | [] => []
  | r :: rs => insertByDeadline r (sortByDeadlineDesc rs)

/-- Denotation of the `search_by_keyword` SQL over a database `db` of
rows: the WHERE filter, then `ORDER BY deadline DESC`, then `LIMIT`. -/
def runKeywordSql (kw : List Char) (limit : Nat) (db : List Row) : List Row :=
  (sortByDeadlineDesc (db.filter (fun r => keywordWhere kw r))).take limit

/-- SQL text of `SimpleSearchAgent.search_construction_tenders`. -/
def constructionSql : String :=
  "SELECT title, description, estimated_value, deadline, organization_name, location FROM estonian_tenders WHERE LOWER(title) LIKE '%ehitus%' OR LOWER(title) LIKE '%construction%' OR LOWER(title) LIKE '%building%' OR LOWER(description) LIKE '%ehitus%' OR LOWER(description) LIKE '%construction%' OR LOWER(description) LIKE '%building%' ORDER BY deadline DESC LIMIT %s"

/-- SQL text of `SimpleSearchAgent.search_harjumaa_tenders`. -/
def harjumaaSql : String :=
  "SELECT title, description, estimated_value, deadline, organization_name, location FROM estonian_tenders WHERE LOWER(location) LIKE '%harjumaa%' OR LOWER(location) LIKE '%harju%' OR LOWER(organization_name) LIKE '%tallinn%' ORDER BY deadline DESC LIMIT %s"

/-- SQL text of `SimpleSearchAgent.search_high_value_tenders`. -/
def highValueSql : String :=
  "SELECT title, description, estimated_value, deadline, organization_name, location FROM estonian_tenders WHERE estimated_value >= %s ORDER BY estimated_value DESC LIMIT %s"

/-- SQL text of `SimpleSearchAgent.search_recent_tenders`. -/
def recentSql : String :=
  "SELECT title, description, estimated_value, deadline, organization_name, location, published_date FROM estonian_tenders WHERE published_date >= CURRENT_DATE - INTERVAL '%s days' ORDER BY published_date DESC LIMIT %s"

/-- SQL text of `SimpleSearchAgent.search_it_tenders`. -/
def itTendersSql : String :=
  "SELECT title, description, estimated_value, deadline, organization_name, location FROM estonian_tenders WHERE LOWER(title) LIKE '%it%' OR LOWER(title) LIKE '%software%' OR LOWER(title) LIKE '%tarkvara%' OR LOWER(title) LIKE '%infotehnoloogia%' OR LOWER(description) LIKE '%software%' OR LOWER(description) LIKE '%tarkvara%' OR LOWER(description) LIKE '%infotehnoloogia%' ORDER BY deadline DESC LIMIT %s"

/-- SQL text of `SimpleSearchAgent.search_active_tenders`. -/
def activeSql : String :=
  "SELECT title, description, estimated_value, deadline, organization_name, location FROM estonian_tenders WHERE deadline >= CURRENT_DATE ORDER BY deadline ASC LIMIT %s"

/-- SQL text of `SimpleSearchAgent.search_by_keyword`. -/
def searchByKeywordSql : String :=
  "SELECT title, description, estimated_value, deadline, organization_name, location FROM estonian_tenders WHERE LOWER(title) LIKE %s OR LOWER(description) LIKE %s OR LOWER(organization_name) LIKE %s ORDER BY deadline DESC LIMIT %s"

/-- A bind value of a parameter tuple in `utils/simple_search.py`. -/
inductive SqlParam
  | nat (n : Nat)
  | str (s : String)
deriving DecidableEq

/-- One positional argument of a Python call to
`DatabaseUtil.execute_query` (beyond `self`). -/
inductive CallArg
  | query (q : String)
  | params (ps : List SqlParam)
deriving DecidableEq

/-- Message of the `TypeError` Python raises when
`DatabaseUtil.execute_query(self, query)` is called with an extra
positional argument. -/
def arityErrorMsg : String :=
  "execute_query() takes 2 positional arguments but 3 were given"

/-- A Python-level call to `DatabaseUtil.execute_query` in `db_util.py`:
its signature accepts exactly one positional argument (the SQL string),
so any other argument list raises a `TypeError` before the body runs.
`db` is the behaviour of the body (`pd.read_sql`): rows on success, a
driver error message on failure. -/
def executeQueryCall (db : String → Except String (List Row))
    (args : List CallArg) : Except String (List Row) :=
  match args with
  | [CallArg.query q] => db q
  | _ => Except.error arityErrorMsg

/-- The result dictionary of a `SimpleSearchAgent` search method.
`none` models both an absent key and a `None` value; in particular the
failure dictionaries of `simple_search.py` carry no `count` and no
`query_type` key, hence `count = none` there. -/
structure SimpleEnvelope where
  success : Bool
  results : Option (List Row)
  count : Option Nat
  error : Option String
  queryType : Option String
  keywordEcho : Option (List Char)
deriving DecidableEq

/-- Failure dictionary shared by every `except` branch in
`simple_search.py`: `success=False, error=str(e), results=None`. -/
def simpleFailure (e : String) : SimpleEnvelope :=
  { success := false, results := none, count := none,
    error := some e, queryType := none, keywordEcho := none }

/-- Try/except body of `search_construction_tenders` given the outcome of
its `execute_query` call. In the success dictionary
`count = len(result) if result is not None else 0`; `execute_query`
returns a DataFrame, never `None`, so the guard's first branch applies. -/
def constructionEnvelope : Except String (List Row) → SimpleEnvelope
  | Except.ok result =>
    { success := true, results := some result, count := some result.length,
      error := none, queryType := some "construction_tenders", keywordEcho := none }
  | Except.error e => simpleFailure e

/-- Try/except body of `search_harjumaa_tenders`. -/
def harjumaaEnvelope : Except String (List Row) → SimpleEnvelope
  | Except.ok result =>
    { success := true, results := some result, count := some result.length,
      error := none, queryType := some "harjumaa_tenders", keywordEcho := none }
  | Except.error e => simpleFailure e

/-- Try/except body of `search_high_value_tenders`. -/
def highValueEnvelope : Except String (List Row) → SimpleEnvelope
  | Except.ok result =>
    { success := true, results := some result, count := some result.length,
      error := none, queryType := some "high_value_tenders", keywordEcho := none }
  | Except.error e => simpleFailure e

/-- Try/except body of `search_recent_tenders`. -/
def recentEnvelope : Except String (List Row) → SimpleEnvelope
  | Except.ok result =>
    { success := true, results := some result, count := some result.length,
      error := none, queryType := some "recent_tenders", keywordEcho := none }
  | Except.error e => simpleFailure e

/-- Try/except body of `search_it_tenders`. -/
def itTendersEnvelope : Except String (List Row) → SimpleEnvelope
  | Except.ok result =>
    { success := true, results := some result, count := some result.length,
      error := none, queryType := some "it_tenders", keywordEcho := none }
  | Except.error e => simpleFailure e

/-- Try/except body of `search_active_tenders`. -/
def activeEnvelope : Except String (List Row) → SimpleEnvelope
  | Except.ok result =>
    { success := true, results := some result, count := some result.length,
      error := none, queryType := some "active_tenders", keywordEcho := none }
  | Except.error e => simpleFailure e

/-- Try/except body of `search_by_keyword`; its success dictionary also
echoes the keyword. -/
def byKeywordEnvelope (kw : List Char) : Except String (List Row) → SimpleEnvelope
  | Except.ok result =>
    { success := true, results := some result, count := some result.length,
      error := none, queryType := some "keyword_search", keywordEcho := some kw }
  | Except.error e => simpleFailure e

/-- `SimpleSearchAgent.search_construction_tenders`: calls
`execute_query(query, (limit,))` - two positional arguments. -/
def search_construction_tenders (db : String → Except String (List Row))
    (limit : Nat) : SimpleEnvelope :=
  constructionEnvelope (executeQueryCall db
    [CallArg.query constructionSql, CallArg.params [SqlParam.nat limit]])

/-- `SimpleSearchAgent.search_harjumaa_tenders`: calls
`execute_query(query, (limit,))`. -/
def search_harjumaa_tenders (db : String → Except String (List Row))
    (limit : Nat) : SimpleEnvelope :=
  harjumaaEnvelope (executeQueryCall db
    [CallArg.query harjumaaSql, CallArg.params [SqlParam.nat limit]])

/-- `SimpleSearchAgent.search_high_value_tenders`: calls
`execute_query(query, (min_value, limit))`. -/
def search_high_value_tenders (db : String → Except String (List Row))
    (min_value limit : Nat) : SimpleEnvelope :=
  highValueEnvelope (executeQueryCall db
    [CallArg.query highValueSql,
     CallArg.params [SqlParam.nat min_value, SqlParam.nat limit]])

/-- `SimpleSearchAgent.search_recent_tenders`: calls
`execute_query(query, (days, limit))`. -/
def search_recent_tenders (db : String → Except String (List Row))
    (days limit : Nat) : SimpleEnvelope :=
  recentEnvelope (executeQueryCall db
    [CallArg.query recentSql,
     CallArg.params [SqlParam.nat days, SqlParam.nat limit]])

/-- `SimpleSearchAgent.search_it_tenders`: calls
`execute_query(query, (limit,))`. -/
def search_it_tenders (db : String → Except String (List Row))
    (limit : Nat) : SimpleEnvelope :=
  itTendersEnvelope (executeQueryCall db
    [CallArg.query itTendersSql, CallArg.params [SqlParam.nat limit]])

/-- `SimpleSearchAgent.search_active_tenders`: calls
`execute_query(query, (limit,))`. -/
def search_active_tenders (db : String → Except String (List Row))
    (limit : Nat) : SimpleEnvelope :=
  activeEnvelope (executeQueryCall db
    [CallArg.query activeSql, CallArg.params [SqlParam.nat limit]])

/-- `SimpleSearchAgent.search_by_keyword`: calls
`execute_query(query, (search_term, search_term, search_term, limit))`. -/
def search_by_keyword (db : String → Except String (List Row))
    (keyword : List Char) (limit : Nat) : SimpleEnvelope :=
  byKeywordEnvelope keyword (executeQueryCall db
    [CallArg.query searchByKeywordSql,
     CallArg.params [SqlParam.str (String.mk (searchTerm keyword)),
                     SqlParam.str (String.mk (searchTerm keyword)),
                     SqlParam.str (String.mk (searchTerm keyword)),
                     SqlParam.nat limit]])

/-- Value of the `count` key of `TenderSearchAgent.search_tenders`
envelopes: the code stores either a string sentinel or the integer 0. -/
inductive CountVal
  | num (n : Nat)
  | str (s : String)
deriving DecidableEq

/-- Result dictionary of `TenderSearchAgent.search_tenders` in
`utils/search_util.py`; `results` is the agent's free-form answer text. -/
structure AgentEnvelope where
  success : Bool
  results : Option String
  query : String
  count : CountVal
  error : Option String
deriving DecidableEq

/-- `TenderSearchAgent.search_tenders` given the outcome of
`self.agent.run(enhanced_query)`: on success
`count = "Multiple results" if "SELECT" in str(result) else "1"`,
on exception `success=False, results=None, count=0, error=str(e)`. -/
def searchTendersEnvelope (query : String)
    (agentRun : Except String String) : AgentEnvelope :=
  match agentRun with
  | Except.ok result =>
    { success := true, results := some result, query := query,
      count := if containsSub "SELECT".toList result.toList then
                 CountVal.str "Multiple results"
               else CountVal.str "1",
      error := none }
  | Except.error e =>
    { success := false, results := none, query := query,
      count := CountVal.num 0, error := some e }

/-- Result dictionary of `SQLChatAssistant.chat_with_database` in
`utils/sql_chat.py`. -/
structure ChatEnvelope where
  success : Bool
  answer : Option String
  question : String
  error : Option String
deriving DecidableEq

/-- `SQLChatAssistant.chat_with_database` given the outcome of
`self.agent.run(context_prompt)`. -/
def chatWithDatabase (question : String)
    (agentRun : Except String String) : ChatEnvelope :=
  match agentRun with
  | Except.ok result =>
    { success := true, answer := some result, question := question,
      error := none }
  | Except.error e =>
    { success := false, answer := none, question := question,
      error := some e }

/-- Which `SimpleSearchAgent` call (method and arguments) the fallback
block of `Home.py` makes for a given template. -/
inductive FallbackCall
  | construction (limit : Nat)
  | harjumaa (limit : Nat)
  | highValue (min_value limit : Nat)
  | recent (limit : Nat)
  | it (limit : Nat)
  | active (limit : Nat)
  | byKeyword (kw : List Char) (limit : Nat)
deriving DecidableEq

/-- The fallback call made by `Home.py` lines 226-242 for query text `q`
and the sidebar's `min_value` filter: each branch invokes the listed
method with `limit=20`; the high-value branch passes
`min_value or 100000` (Python `or`: 100000 when `min_value` is 0); the
`else` branch passes the first whitespace token of the query. -/
def fallbackAction (q : List Char) (min_value : Nat) : FallbackCall :=
  match dispatch q with
  | Template.construction => FallbackCall.construction 20
  | Template.harjumaa => FallbackCall.harjumaa 20
  | Template.highValue =>
    FallbackCall.highValue (if min_value = 0 then 100000 else min_value) 20
  | Template.recent => FallbackCall.recent 20
  | Template.it => FallbackCall.it 20
  | Template.active => FallbackCall.active 20
  | Template.keyword => FallbackCall.byKeyword (mainKeyword q) 20

/-- Python truthiness of `result.get("results")` for the AI envelope:
`None` and the empty string are falsy. -/
def agentResultsTruthy : Option String → Bool
  | none => false
  | some s => !s.isEmpty

/-- The AI-path acceptance test of `Home.py` line 202:
`result["success"] and result.get("results")`; when false the code
raises internally ("AI search returned no results") and the fallback
block runs instead. -/
def aiSearchAccepts (env : AgentEnvelope) : Bool :=
  env.success && agentResultsTruthy env.results

/-- Digit-grouping step for Python's `f"{x:,.0f}"`: input digits are
least-significant first, `k` counts digits emitted since the last
separator. -/
def groupAux : List Char → Nat → List Char
  | [], _ => []
  | d :: ds, k =>
    if k == 3 then ',' :: d :: groupAux ds 1
    else d :: groupAux ds (k + 1)

/-- Python `f"€{x:,.0f}"` for a whole-euro amount: euro sign followed by
the decimal digits with a comma every three digits. -/
def formatCurrencyNat (n : Nat) : String :=
  "€" ++ String.mk ((groupAux ((Nat.toDigits 10 n).reverse) 0).reverse)

/-- The column formatter applied in `Home.py` lines 256-259:
`f"€{x:,.0f}" if pd.notnull(x) and x > 0 else "Not specified"`. -/
def formatEstimatedValue : Option Nat → String
  | some v => if 0 < v then formatCurrencyNat v else "Not specified"
  | none => "Not specified"

/-- A row of the displayed dataframe after the formatter ran: every
column is a string. -/
structure DisplayRow where
  title : String
  description : String
  estimated_value : String
  deadline : String
  organization_name : String
  location : String
deriving DecidableEq

/-- The in-place column update `df['estimated_value'] = ...apply(...)`
of `Home.py`: only the `estimated_value` column changes. -/
def toDisplayRow (r : Row) : DisplayRow :=
  { title := r.title, description := r.description,
    estimated_value := formatEstimatedValue r.estimated_value,
    deadline := r.deadline, organization_name := r.organization_name,
    location := r.location }

/-- Header record of `df.to_csv(index=False)`: the dataframe's columns
in SELECT order. -/
def csvHeader : List String :=
  ["title", "description", "estimated_value", "deadline",
   "organization_name", "location"]

/-- The cells of one display row, in column order. -/
def displayFields (d : DisplayRow) : List String :=
  [d.title, d.description, d.estimated_value, d.deadline,
   d.organization_name, d.location]

/-- The records `df.to_csv(index=False)` serialises for the *formatted*
dataframe (`Home.py` computes `csv = df.to_csv(index=False)` after the
`estimated_value` column was overwritten): header record then one record
per row. -/
def csvRecords (rows : List Row) : List (List String) :=
  csvHeader :: (rows.map toDisplayRow).map displayFields

/-- Pandas `to_csv` minimal quoting: a field is quoted when it contains
a separator, a quote or a line break. -/
def csvNeedsQuoting (s : String) : Bool :=
  s.toList.any (fun c => c == ',' || c == '"' || c == '\n' || c == '\r')

/-- Double every quote character inside a quoted CSV field. -/
def csvEscape (s : String) : String :=
  String.mk (s.toList.flatMap (fun c => if c == '"' then ['"', '"'] else [c]))

/-- Serialise one CSV field with pandas' minimal quoting. -/
def csvField (s : String) : String :=
  if csvNeedsQuoting s then "\"" ++ csvEscape s ++ "\"" else s

/-- Serialise one CSV record. -/
def renderCsvRecord (fs : List String) : String :=
  String.intercalate "," (fs.map csvField)

/-- Serialise the full CSV text as `df.to_csv(index=False)` does:
newline-separated records with a trailing newline. -/
def renderCsv (recs : List (List String)) : String :=
  String.intercalate "\n" (recs.map renderCsvRecord) ++ "\n"

/-- What the fallback result block of `Home.py` lines 246-275 shows. -/
inductive FallbackRender
  | table (csv : String)
  | infoNoResults
  | errorMessage (msg : String)
deriving DecidableEq

/-- The fallback rendering of `Home.py` lines 246-275: the dataframe and
its CSV download when `result["success"] and result.get("results") is
not None and len(result["results"]) > 0`; inside that branch the
`df.empty` test guards an informational message; otherwise
`st.error(f"❌ Search failed: {result.get('error', 'No results found')}")`. -/
def renderFallback (env : SimpleEnvelope) : FallbackRender :=
  match env.results with
  | some rows =>
    if env.success && decide (0 < rows.length) then
      if rows.isEmpty then FallbackRender.infoNoResults
      else FallbackRender.table (renderCsv (csvRecords rows))
    else
      FallbackRender.errorMessage
        ("❌ Search failed: " ++ env.error.getD "No results found")
  | none =>
    FallbackRender.errorMessage
      ("❌ Search failed: " ++ env.error.getD "No results found")

/-- The location-filter SQL of `TenderSearchAgent.get_tenders_by_location`
in `utils/search_util.py`, which is an f-string: the lowercased
user-supplied location and the limit are interpolated directly into the
SQL text. -/
def getTendersByLocationSql (location : String) (limit : Nat) : String :=
  "SELECT et.*, etd.tender_name, etd.short_description, etd.estimated_cost, etd.nuts_code FROM estonian_tenders et LEFT JOIN estonian_tender_details etd ON et.procurement_id = etd.procurement_id WHERE LOWER(etd.nuts_code) LIKE '%" ++
  String.mk (lowerList location.toList) ++
  "%' OR LOWER(etd.location_additional_info) LIKE '%" ++
  String.mk (lowerList location.toList) ++
  "%' OR LOWER(et.contracting_authority_name) LIKE '%" ++
  String.mk (lowerList location.toList) ++
  "%' ORDER BY et.created_at DESC LIMIT " ++ toString limit

/-- Concrete row used when refuting the value-threshold scenario: it
matches the generic keyword filter for "tenders" yet has value 0. -/
def lowValueRow : Row :=
  { title := "Office cleaning tenders", description := "Cleaning services",
    estimated_value := some 0, deadline := "2024-01-01",
    organization_name := "City of Tartu", location := "Tartu" }

/-- Concrete row whose title contains "50" but not "50%": it matches the
LIKE pattern built from the keyword "50%" without containing that
keyword as a substring. -/
def areaRow : Row :=
  { title := "Area 502", description := "Zone maintenance",
    estimated_value := some 1000, deadline := "2024-02-02",
    organization_name := "City of Narva", location := "Narva" }

/-- Concrete row with a 50000-euro estimated value, used for the CSV
round-trip refutation. -/
def row50k : Row :=
  { title := "Road works", description := "Paving",
    estimated_value := some 50000, deadline := "2024-05-01",
    organization_name := "City", location := "Tallinn" }

theorem toList_append (s t : String) : (s ++ t).toList = s.toList ++ t.toList := rfl

theorem toList_mk (l : List Char) : (String.mk l).toList = l := rfl

theorem isPrefixCh_append (w t : List Char) : isPrefixCh w (w ++ t) = true := by
  induction w with
  | nil => rfl
  | cons a as ih => simp [isPrefixCh, ih]

theorem containsSub_of_prefix {w s : List Char} (h : isPrefixCh w s = true) :
    containsSub w s = true := by
  cases s with
  | nil => simpa [containsSub] using h
  | cons c cs => simp [containsSub, h]

theorem containsSub_of_append (a w b : List Char) :
    containsSub w (a ++ (w ++ b)) = true := by
  induction a with
  | nil => simpa using containsSub_of_prefix (isPrefixCh_append w b)
  | cons c a' ih => simp [containsSub, ih]

theorem lowerList_append (a b : List Char) :
    lowerList (a ++ b) = lowerList a ++ lowerList b := by
  simp [lowerList]

theorem wordsAux_infix :
    ∀ (s cur w : List Char), w ∈ wordsAux s cur →
      ∃ a b, cur.reverse ++ s = a ++ (w ++ b) := by
  intro s
  induction s with
  | nil =>
    intro cur w h
    by_cases hc : cur = []
    · subst hc; simp [wordsAux] at h
    · simp [wordsAux, hc] at h
      subst h
      exact ⟨[], [], by simp⟩
  | cons c cs ih =>
    intro cur w h
    by_cases hw : c.isWhitespace
    · by_cases hc : cur = []
      · subst hc
        simp only [wordsAux, hw, if_true, if_pos rfl] at h
        obtain ⟨a, b, hab⟩ := ih [] w h
        simp only [List.reverse_nil, List.nil_append] at hab
        exact ⟨c :: a, b, by simp [hab]⟩
      · simp only [wordsAux, hw, if_true, if_neg hc, List.mem_cons] at h
        rcases h with h | h
        · subst h
          exact ⟨[], c :: cs, by simp⟩
        · obtain ⟨a, b, hab⟩ := ih [] w h
          simp only [List.reverse_nil, List.nil_append] at hab
          refine ⟨cur.reverse ++ c :: a, b, ?_⟩
          simp [hab, List.append_assoc]
    · simp only [wordsAux, hw, if_false, Bool.false_eq_true] at h
      obtain ⟨a, b, hab⟩ := ih (c :: cur) w h
      refine ⟨a, b, ?_⟩
      simpa [List.append_assoc] using hab

theorem words_infix {w s : List Char} (h : w ∈ words s) :
    ∃ a b, s = a ++ (w ++ b) := by
  simpa using wordsAux_infix s [] w h

theorem likeMatchF_nil_nil (f : Nat) : likeMatchF f [] [] = true := by
  cases f <;> rfl

theorem likeMatchF_nil_cons (f : Nat) (d : Char) (s : List Char) :
    likeMatchF f [] (d :: s) = false := by
  cases f <;> rfl

theorem likeMatchF_pct (s : List Char) :
    ∀ f, s.length < f → likeMatchF f ['%'] s = true := by
  induction s with
  | nil =>
    intro f hf
    match f, hf with
    | f' + 1, _ => simp [likeMatchF, likeMatchF_nil_nil]
  | cons d s' ih =>
    intro f hf
    match f, hf with
    | f' + 1, hf =>
      have hlt : s'.length < f' := by
        simp only [List.length_cons] at hf
        omega
      simp [likeMatchF, likeMatchF_nil_cons, ih f' hlt]

theorem likeMatchF_lit :
    ∀ (w : List Char), noWild w = true → ∀ (f : Nat) (s : List Char),
      w.length + s.length < f → likeMatchF f (w ++ ['%']) s = isPrefixCh w s := by
  intro w
  induction w with
  | nil =>
    intro _ f s hf
    have : s.length < f := by simpa using hf
    simp [likeMatchF_pct s f this, isPrefixCh]
  | cons c w' ih =>
    intro hnw f s hf
    have hparts : ((c == '%') = false ∧ (c == '_') = false) ∧ noWild w' = true := by
      simpa [noWild, Bool.or_eq_false_iff] using hnw
    obtain ⟨⟨h1, h2⟩, h3⟩ := hparts
    match f, hf with
    | f' + 1, hf =>
      cases s with
      | nil =>
        simp [likeMatchF, h1, isPrefixCh]
      | cons d s' =>
        have hlt : w'.length + s'.length < f' := by
          simp only [List.length_cons] at hf
          omega
        simp [likeMatchF, h1, h2, isPrefixCh, ih h3 f' s' hlt]

theorem likeMatchF_contains :
    ∀ (s : List Char) (f : Nat) (w : List Char), noWild w = true →
      w.length + s.length + 1 < f →
      likeMatchF f ('%' :: (w ++ ['%'])) s = containsSub w s := by
  intro s
  induction s with
  | nil =>
    intro f w hnw hf
    match f, hf with
    | f' + 1, hf =>
      have hlt : w.length + ([] : List Char).length < f' := by
        simp only [List.length_nil] at hf ⊢
        omega
      simp [likeMatchF, likeMatchF_lit w hnw f' [] hlt, containsSub]
  | cons d s' ih =>
    intro f w hnw hf
    match f, hf with
    | f' + 1, hf =>
      have hlt1 : w.length + (d :: s').length < f' := by
        simp only [List.length_cons] at hf ⊢
        omega
      have hlt2 : w.length + s'.length + 1 < f' := by
        simp only [List.length_cons] at hf
        omega
      simp [likeMatchF, likeMatchF_lit w hnw f' (d :: s') hlt1, ih f' w hnw hlt2,
        containsSub]

theorem likeMatch_wildfree (w s : List Char) (hnw : noWild w = true) :
    likeMatch ('%' :: (w ++ ['%'])) s = containsSub w s := by
  apply likeMatchF_contains s _ w hnw
  simp [List.length_append]
  omega

theorem mem_insertByDeadline {r x : Row} {l : List Row}
    (h : r ∈ insertByDeadline x l) : r = x ∨ r ∈ l := by
  induction l with
  | nil =>
    simp [insertByDeadline] at h
    exact Or.inl h
  | cons y ys ih =>
    by_cases hc : y.deadline ≤ x.deadline
    · rw [insertByDeadline, if_pos hc] at h
      cases h with
      | head => exact Or.inl rfl
      | tail _ h2 => exact Or.inr h2
    · rw [insertByDeadline, if_neg hc] at h
      cases h with
      | head => exact Or.inr (List.mem_cons_self _ _)
      | tail _ h2 =>
        rcases ih h2 with h' | h'
        · exact Or.inl h'
        · exact Or.inr (List.mem_cons_of_mem _ h')

theorem mem_sortByDeadlineDesc {r : Row} {l : List Row}
    (h : r ∈ sortByDeadlineDesc l) : r ∈ l := by
  induction l with
  | nil => simp [sortByDeadlineDesc] at h
  | cons x xs ih =>
    rcases mem_insertByDeadline h with h' | h'
    · simp [h']
    · exact List.mem_cons_of_mem _ (ih h')

theorem mem_runKeywordSql {r : Row} {kw : List Char} {limit : Nat} {db : List Row}
    (h : r ∈ runKeywordSql kw limit db) : keywordWhere kw r = true := by
  have h1 : r ∈ sortByDeadlineDesc (db.filter fun r => keywordWhere kw r) :=
    List.take_subset _ _ h
  have h2 := mem_sortByDeadlineDesc h1
  exact (List.mem_filter.mp h2).2

/-- C1: for every query request whose raw text contains the token
"construction" or the token "ehitus", the keyword dispatch selects the
construction template, even when keywords of other templates co-occur
in the same text. -/
theorem c1_construction_priority (q : List Char)
    (h : "construction".toList ∈ words q ∨ "ehitus".toList ∈ words q) :
    dispatch q = Template.construction := by
  have key : anyKeywordIn ["construction", "ehitus", "building"] (lowerList q) = true := by
    rcases h with h | h
    · obtain ⟨a, b, hab⟩ := words_infix h
      have hl : lowerList ("construction".toList) = "construction".toList := by decide
      have hcon : containsSub "construction".toList (lowerList q) = true := by
        rw [hab, lowerList_append, lowerList_append, hl]
        exact containsSub_of_append _ _ _
      simp only [anyKeywordIn, List.any_cons, List.any_nil, Bool.or_eq_true]
      exact Or.inl hcon
    · obtain ⟨a, b, hab⟩ := words_infix h
      have hl : lowerList ("ehitus".toList) = "ehitus".toList := by decide
      have hcon : containsSub "ehitus".toList (lowerList q) = true := by
        rw [hab, lowerList_append, lowerList_append, hl]
        exact containsSub_of_append _ _ _
      simp only [anyKeywordIn, List.any_cons, List.any_nil, Bool.or_eq_true]
      exact Or.inr (Or.inl hcon)
  simp [dispatch, key]

/-- C1 witness: the raw text "construction tenders in tallinn", where a
location keyword co-occurs, selects the construction template. -/
theorem c1_construction_priority_witness :
    dispatch ("construction tenders in tallinn".toList) = Template.construction :=
  c1_construction_priority _ (Or.inl (by decide))

/-- C2 counterexample: the code dispatches "italian tenders" to the IT
template because "it" is a substring of "italian", while the claimed
token-membership dispatch would fall through to the generic keyword
template - the dispatch predicate is not membership of the text's
tokens in the trigger sets. -/
theorem c2_token_membership_cex :
    dispatch ("italian tenders".toList) = Template.it ∧
    dispatchSpecTokens ("italian tenders".toList) = Template.keyword ∧
    Template.it ≠ Template.keyword := by
  exact ⟨by decide, by decide, by decide⟩

/-- C2 (amended): the dispatch resolver selects a template by testing
substring containment of each template's trigger keywords in the
lowercased raw text, evaluated as an ordered table in the fixed priority
order construction, location, high-value, recent, IT, active, with
first-match-wins semantics and the generic keyword fallback when the
table is exhausted. -/
theorem c2_ordered_table_refinement :
    ∀ q : List Char, dispatch q = resolveFirst dispatchTable (lowerList q) := by
  intro q
  rfl

/-- C3 counterexample: the scenario request "tenders" with
min_value 50000 reaches the generic keyword template, whose SQL text
contains neither a value-threshold predicate nor a date predicate, and
whose result set can contain a row with estimated value 0 < 50000. -/
theorem c3_no_value_predicate_cex :
    dispatch ("tenders".toList) = Template.keyword ∧
    fallbackAction ("tenders".toList) 50000 =
      FallbackCall.byKeyword ("tenders".toList) 20 ∧
    runKeywordSql ("tenders".toList) 20 [lowValueRow] = [lowValueRow] ∧
    lowValueRow.estimated_value = some 0 ∧
    ¬ (50000 ≤ (lowValueRow.estimated_value).getD 0) ∧
    containsSub ">=".toList searchByKeywordSql.toList = false ∧
    containsSub "CURRENT_DATE".toList searchByKeywordSql.toList = false ∧
    containsSub "INTERVAL".toList searchByKeywordSql.toList = false := by
  exact ⟨by decide, by decide, by decide, rfl, by decide, by decide, by decide, by decide⟩

/-- C3 (amended): for a request whose raw text matches no keyword
trigger, the fallback runs the generic keyword template with the first
token of the text and limit 20, whatever min_value is; that query
filters rows only by the keyword LIKE predicate over the title,
description and organization fields, so min_value and time_window are
not applied to it and returned rows need not satisfy any value
threshold. -/
theorem c3_generic_fallback_filters (q : List Char) (V : Nat)
    (h : dispatch q = Template.keyword) :
    fallbackAction q V = FallbackCall.byKeyword (mainKeyword q) 20 ∧
    (∀ (db : List Row) (limit : Nat) (r : Row),
      r ∈ runKeywordSql (mainKeyword q) limit db →
      keywordWhere (mainKeyword q) r = true) := by
  constructor
  · simp [fallbackAction, h]
  · intro db limit r hr
    exact mem_runKeywordSql hr

/-- C3 witness: applied to the scenario request "tenders" with
min_value 50000 and the one-row database containing `lowValueRow`. -/
theorem c3_generic_fallback_filters_witness :
    fallbackAction ("tenders".toList) 50000 =
      FallbackCall.byKeyword (mainKeyword ("tenders".toList)) 20 ∧
    keywordWhere (mainKeyword ("tenders".toList)) lowValueRow = true := by
  have h := c3_generic_fallback_filters ("tenders".toList) 50000 (by decide)
  exact ⟨h.1, h.2 [lowValueRow] 20 lowValueRow (by decide)⟩

/-- C4: every execution failure inside a dispatch-resolver search method
or the AI facade is caught and returned as an envelope with
success=false whose error field carries the underlying message
verbatim; the functions are total, so no fault escapes to the caller. -/
theorem c4_errors_enveloped :
    ∀ (e kw q question : String),
      (constructionEnvelope (Except.error e)).success = false ∧
      (constructionEnvelope (Except.error e)).error = some e ∧
      (harjumaaEnvelope (Except.error e)).success = false ∧
      (harjumaaEnvelope (Except.error e)).error = some e ∧
      (highValueEnvelope (Except.error e)).success = false ∧
      (highValueEnvelope (Except.error e)).error = some e ∧
      (recentEnvelope (Except.error e)).success = false ∧
      (recentEnvelope (Except.error e)).error = some e ∧
      (itTendersEnvelope (Except.error e)).success = false ∧
      (itTendersEnvelope (Except.error e)).error = some e ∧
      (activeEnvelope (Except.error e)).success = false ∧
      (activeEnvelope (Except.error e)).error = some e ∧
      (byKeywordEnvelope kw.toList (Except.error e)).success = false ∧
      (byKeywordEnvelope kw.toList (Except.error e)).error = some e ∧
      (searchTendersEnvelope q (Except.error e)).success = false ∧
      (searchTendersEnvelope q (Except.error e)).error = some e ∧
      (chatWithDatabase question (Except.error e)).success = false ∧
      (chatWithDatabase question (Except.error e)).error = some e := by
  intro e kw q question
  exact ⟨rfl, rfl, rfl, rfl, rfl, rfl, rfl, rfl, rfl, rfl, rfl, rfl, rfl, rfl,
    rfl, rfl, rfl, rfl⟩

/-- C5 counterexample: the failure envelope of a SimpleSearchAgent
method has no count key at all (so count is not 0 there), and the
success envelope of TenderSearchAgent.search_tenders stores the string
sentinel "1" in count while its results field is non-null free text -
count does not equal a number of rows. -/
theorem c5_count_field_cex :
    (constructionEnvelope (Except.error "connection refused")).results = none ∧
    (constructionEnvelope (Except.error "connection refused")).count = none ∧
    (constructionEnvelope (Except.error "connection refused")).count ≠ some 0 ∧
    (searchTendersEnvelope "q" (Except.ok "Here are the tenders")).results =
      some "Here are the tenders" ∧
    (searchTendersEnvelope "q" (Except.ok "Here are the tenders")).count =
      CountVal.str "1" ∧
    CountVal.str "1" ≠ CountVal.num 1 := by
  exact ⟨rfl, rfl, by decide, rfl, by decide, by decide⟩

/-- C5 (amended): in SimpleSearchAgent envelopes exactly one of
results/error is non-null according to the success flag, count equals
the number of rows on success and the count key is absent on failure;
in TenderSearchAgent.search_tenders envelopes results/error exclusivity
also holds, but the success count is the string "Multiple results" or
"1" rather than a row count, and the failure count is the integer 0. -/
theorem c5_envelope_invariants :
    ∀ (rows : List Row) (e kw q res : String),
      (constructionEnvelope (Except.ok rows)).success = true ∧
      (constructionEnvelope (Except.ok rows)).results = some rows ∧
      (constructionEnvelope (Except.ok rows)).error = none ∧
      (constructionEnvelope (Except.ok rows)).count = some rows.length ∧
      (constructionEnvelope (Except.error e)).success = false ∧
      (constructionEnvelope (Except.error e)).results = none ∧
      (constructionEnvelope (Except.error e)).error = some e ∧
      (constructionEnvelope (Except.error e)).count = none ∧
      (byKeywordEnvelope kw.toList (Except.ok rows)).success = true ∧
      (byKeywordEnvelope kw.toList (Except.ok rows)).results = some rows ∧
      (byKeywordEnvelope kw.toList (Except.ok rows)).error = none ∧
      (byKeywordEnvelope kw.toList (Except.ok rows)).count = some rows.length ∧
      (byKeywordEnvelope kw.toList (Except.error e)).success = false ∧
      (byKeywordEnvelope kw.toList (Except.error e)).results = none ∧
      (byKeywordEnvelope kw.toList (Except.error e)).error = some e ∧
      (byKeywordEnvelope kw.toList (Except.error e)).count = none ∧
      (searchTendersEnvelope q (Except.ok res)).success = true ∧
      (searchTendersEnvelope q (Except.ok res)).results = some res ∧
      (searchTendersEnvelope q (Except.ok res)).error = none ∧
      ((searchTendersEnvelope q (Except.ok res)).count =
          CountVal.str "Multiple results" ∨
        (searchTendersEnvelope q (Except.ok res)).count = CountVal.str "1") ∧
      (searchTendersEnvelope q (Except.error e)).success = false ∧
      (searchTendersEnvelope q (Except.error e)).results = none ∧
      (searchTendersEnvelope q (Except.error e)).error = some e ∧
      (searchTendersEnvelope q (Except.error e)).count = CountVal.num 0 := by
  intro rows e kw q res
  refine ⟨rfl, rfl, rfl, rfl, rfl, rfl, rfl, rfl, rfl, rfl, rfl, rfl, rfl, rfl,
    rfl, rfl, rfl, rfl, rfl, ?_, rfl, rfl, rfl, rfl⟩
  cases hc : containsSub "SELECT".toList res.toList
  · right
    simp [searchTendersEnvelope, hc]
    exact hc
  · left
    simp [searchTendersEnvelope, hc]
    exact hc

set_option maxRecDepth 4000 in
/-- C6 counterexample: the location filter of
TenderSearchAgent.get_tenders_by_location splices the user-supplied
location (here an injection-shaped string, lowercased) verbatim into the
SQL text as an f-string, and the executed-path
DatabaseUtil.execute_query accepts no bind-parameter argument at all -
a call that supplies one raises instead of binding. -/
theorem c6_interpolated_location_cex :
    containsSub ("x' or '1'='1").toList
      ((getTendersByLocationSql "X' OR '1'='1" 10).toList) = true ∧
    executeQueryCall (fun _ => Except.ok [])
      [CallArg.query "SELECT 1", CallArg.params [SqlParam.nat 1]] =
      Except.error arityErrorMsg := by
  exact ⟨by decide, rfl⟩

/-- C6 (amended): the SimpleSearchAgent templates are written with %s
placeholders, but user-supplied substrings are not bound on the path
that actually executes: get_tenders_by_location interpolates the
lowercased location directly into its SQL string for every location
value, and DatabaseUtil.execute_query has no parameter argument, so any
attempt to pass a bind tuple fails instead of binding. -/
theorem c6_location_spliced :
    ∀ (location : String) (limit : Nat)
      (db : String → Except String (List Row)) (q : String) (ps : List SqlParam),
      containsSub (lowerList location.toList)
        ((getTendersByLocationSql location limit).toList) = true ∧
      executeQueryCall db [CallArg.query q, CallArg.params ps] =
        Except.error arityErrorMsg := by
  intro location limit db q ps
  constructor
  · simp only [getTendersByLocationSql, toList_append, toList_mk, List.append_assoc]
    exact containsSub_of_append _ _ _
  · rfl

/-- C7 counterexample: `Home.py` overwrites the estimated_value column
with the currency strings before computing `df.to_csv`, so the
downloaded CSV itself contains the currency-formatted string (quoted,
since it contains a comma) - the transmitted data is not free of
presentation formatting, and re-parsing the CSV cannot recover the
numeric value 50000. -/
theorem c7_csv_contains_currency_cex :
    formatEstimatedValue row50k.estimated_value = "€50,000" ∧
    containsSub "\"€50,000\"".toList
      ((renderCsv (csvRecords [row50k])).toList) = true ∧
    containsSub "50000".toList
      ((renderCsv (csvRecords [row50k])).toList) = false ∧
    formatEstimatedValue none = "Not specified" ∧
    formatEstimatedValue (some 0) = "Not specified" := by
  exact ⟨by decide, by decide, by decide, rfl, rfl⟩

/-- C7 (amended): the CSV export serialises the already-formatted
dataframe: it has one header record plus exactly one record per result
row, the non-currency columns are serialised verbatim, and the
estimated_value column holds the currency-formatted presentation string
rather than the stored value. -/
theorem c7_csv_records_shape :
    ∀ rows : List Row,
      (csvRecords rows).length = rows.length + 1 ∧
      (csvRecords rows).tail = rows.map (fun r =>
        [r.title, r.description, formatEstimatedValue r.estimated_value,
         r.deadline, r.organization_name, r.location]) := by
  intro rows
  constructor
  · simp [csvRecords]
  · simp [csvRecords, List.map_map, Function.comp, toDisplayRow, displayFields]

/-- C8 counterexample: a query attempt that succeeds with zero rows
(success=true, count=0) is rendered by the fallback block as the error
message "❌ Search failed: No results found" - the user is shown an
error, not an informational no-results state. -/
theorem c8_zero_rows_error_cex :
    (constructionEnvelope (Except.ok ([] : List Row))).success = true ∧
    (constructionEnvelope (Except.ok ([] : List Row))).count = some 0 ∧
    renderFallback (constructionEnvelope (Except.ok [])) =
      FallbackRender.errorMessage "❌ Search failed: No results found" := by
  exact ⟨rfl, rfl, by decide⟩

/-- C8 (amended): any envelope with success=true and zero rows is routed
through the failure branch of the fallback rendering (the error message
built from `result.get('error', 'No results found')`); the informational
no-results branch of the code is unreachable for every envelope. -/
theorem c8_zero_rows_render (env : SimpleEnvelope)
    (hs : env.success = true) (hr : env.results = some ([] : List Row)) :
    renderFallback env =
      FallbackRender.errorMessage
        ("❌ Search failed: " ++ env.error.getD "No results found") ∧
    (∀ env' : SimpleEnvelope, renderFallback env' ≠ FallbackRender.infoNoResults) := by
  constructor
  · unfold renderFallback
    rw [hr, hs]
    simp
  · intro env'
    unfold renderFallback
    cases hres : env'.results with
    | none => simp
    | some rows =>
      cases hrows : rows with
      | nil => simp
      | cons x xs =>
        cases hsucc : env'.success
        · simp
        · simp

/-- C8 witness: a construction-template success envelope with zero rows
is rendered through the failure branch. -/
theorem c8_zero_rows_render_witness :
    renderFallback (constructionEnvelope (Except.ok ([] : List Row))) =
      FallbackRender.errorMessage
        ("❌ Search failed: " ++
          (constructionEnvelope (Except.ok ([] : List Row))).error.getD
            "No results found") :=
  (c8_zero_rows_render _ rfl rfl).1

/-- C9 counterexample: for the raw text "50% discount" the resolver uses
the first token "50%" as the generic keyword, but the executed filter is
a LIKE pattern, not a substring filter: the row `areaRow` matches it
although none of its title, description or organization contains the
substring "50%". -/
theorem c9_like_wildcard_cex :
    dispatch ("50% discount".toList) = Template.keyword ∧
    mainKeyword ("50% discount".toList) = "50%".toList ∧
    keywordWhere ("50%".toList) areaRow = true ∧
    containsSub (lowerList "50%".toList) (lowerList areaRow.title.toList) = false ∧
    containsSub (lowerList "50%".toList) (lowerList areaRow.description.toList) = false ∧
    containsSub (lowerList "50%".toList)
      (lowerList areaRow.organization_name.toList) = false := by
  exact ⟨by decide, by decide, by decide, by decide, by decide, by decide⟩

/-- C9 (amended): when the raw text matches no keyword trigger, the
fallback runs the generic template with the first whitespace-separated
token of the raw text, lowercased and wrapped in percent signs, as a
LIKE pattern over the lowered title, description and organization
fields; whenever that token contains no LIKE wildcard this filter is
exactly a case-insensitive substring filter over those three fields. -/
theorem c9_keyword_fallback (q : List Char) (min_value : Nat)
    (h : dispatch q = Template.keyword) :
    fallbackAction q min_value = FallbackCall.byKeyword (mainKeyword q) 20 ∧
    (∀ r : Row, noWild (lowerList (mainKeyword q)) = true →
      keywordWhere (mainKeyword q) r =
        (containsSub (lowerList (mainKeyword q)) (lowerList r.title.toList) ||
         containsSub (lowerList (mainKeyword q)) (lowerList r.description.toList) ||
         containsSub (lowerList (mainKeyword q))
           (lowerList r.organization_name.toList))) := by
  constructor
  · simp [fallbackAction, h]
  · intro r hnw
    unfold keywordWhere searchTerm
    rw [likeMatch_wildfree _ _ hnw, likeMatch_wildfree _ _ hnw,
      likeMatch_wildfree _ _ hnw]

/-- C9 witness: the raw text "cleaning tenders" matches no trigger; its
first token "cleaning" is wildcard-free, so the executed filter is the
substring filter over the three fields, here evaluated at `lowValueRow`. -/
theorem c9_keyword_fallback_witness :
    fallbackAction ("cleaning tenders".toList) 0 =
      FallbackCall.byKeyword (mainKeyword ("cleaning tenders".toList)) 20 ∧
    keywordWhere (mainKeyword ("cleaning tenders".toList)) lowValueRow =
      (containsSub (lowerList (mainKeyword ("cleaning tenders".toList)))
         (lowerList lowValueRow.title.toList) ||
       containsSub (lowerList (mainKeyword ("cleaning tenders".toList)))
         (lowerList lowValueRow.description.toList) ||
       containsSub (lowerList (mainKeyword ("cleaning tenders".toList)))
         (lowerList lowValueRow.organization_name.toList)) := by
  have h := c9_keyword_fallback ("cleaning tenders".toList) 0 (by decide)
  exact ⟨h.1, h.2 lowValueRow (by decide)⟩

/-- C10: every SimpleSearchAgent search method passes its parameter
tuple as a second positional argument to DatabaseUtil.execute_query,
whose signature accepts only the SQL string, so - whatever the database
would answer - every such call takes the exception branch and returns an
envelope with success=False and results=None; no canned template query
can ever execute successfully through this interface. -/
theorem c10_arity_bug_envelopes :
    ∀ (db : String → Except String (List Row)) (limit min_value days : Nat)
      (kw : List Char),
      (search_construction_tenders db limit).success = false ∧
      (search_construction_tenders db limit).results = none ∧
      (search_construction_tenders db limit).error = some arityErrorMsg ∧
      (search_harjumaa_tenders db limit).success = false ∧
      (search_harjumaa_tenders db limit).results = none ∧
      (search_high_value_tenders db min_value limit).success = false ∧
      (search_high_value_tenders db min_value limit).results = none ∧
      (search_recent_tenders db days limit).success = false ∧
      (search_recent_tenders db days limit).results = none ∧
      (search_it_tenders db limit).success = false ∧
      (search_it_tenders db limit).results = none ∧
      (search_active_tenders db limit).success = false ∧
      (search_active_tenders db limit).results = none ∧
      (search_by_keyword db kw limit).success = false ∧
      (search_by_keyword db kw limit).results = none ∧
      (search_by_keyword db kw limit).error = some arityErrorMsg := by
  intro db limit min_value days kw
  exact ⟨rfl, rfl, rfl, rfl, rfl, rfl, rfl, rfl, rfl, rfl, rfl, rfl, rfl, rfl,
    rfl, rfl⟩
